import Mathlib

/-!
Shallow embedding of the MetriFyPostgres spreadsheet-import core
(`src/app.py`): the value normalizers (`parse_brl`, `parse_data_venda`,
the `int()`/`float()` coercion-with-default patterns) and the two batch
  importers (`importar_vendas_ml`, `importar_vendas_template`).

Modelling conventions:
* Python floats are modelled as exact rationals (`ℚ`); the claims under
  study are about the arithmetic formulas, not IEEE rounding.
* A spreadsheet cell (a pandas value reached through `row.get`) is the
  inductive `Cell`: missing value (`None`), float NaN, int, float,
  string, or a native datetime.
* Python `float(s)` / `int(s)` on strings are modelled on the decimal
  literal grammar (sign, digits, point, exponent / sign, digits), with
  surrounding whitespace stripped as Python does.  Python's acceptance
  of `_` digit separators and of the special words `inf`/`nan` is not
  modelled; no input in the claims uses them.
* Database effects are modelled by explicit state passing: an importer
  takes the `produtos` table (a list) and returns, inside `Except`
  (errors model raised exceptions, which in the source abort the
  transaction with no partial write), the updated table together with
  the inserted `vendas` rows and the three counters of the summary.
-/

/-- A concrete calendar datetime as produced by Python's `datetime`
constructor (validity is enforced at construction, see `mkDatetime`). -/
structure PyDateTime where
  year : Int
  month : Int
  day : Int
  hour : Int
  minute : Int
  deriving DecidableEq, Repr

/-- A raw spreadsheet cell as seen through pandas `row.get`. -/
inductive Cell where
  | none
  | nan
  | int (n : Int)
  | float (q : ℚ)
  | str (s : String)
  | datetime (dt : PyDateTime)
  deriving DecidableEq, Repr

/-- Python truthiness of a cell (`bool(x)`): `None`, `0`, `0.0` and the
empty string are falsy; NaN and datetimes are truthy. -/
def Cell.truthy : Cell → Bool
  | .none => false
  | .nan => true
  | .int n => n != 0
  | .float q => q != 0
  | .str s => s != ""
  | .datetime _ => true

/-- pandas missing-value test (`isna`): `None` and float NaN are NA. -/
def Cell.isNA : Cell → Bool
  | .none => true
  | .nan => true
  | _ => false

/-- Python `str(x)`.  Integers and strings are rendered exactly; the
float and datetime renderings are approximations (the claims never
inspect those strings — they only flow into `numero_venda_ml` or into a
float-parse that fails either way). -/
def pyStr : Cell → String
  | .none => "None"
  | .nan => "nan"
  | .int n => toString n
  | .float q => if q.den = 1 then toString q.num ++ ".0" else toString q
  | .str s => s
  | .datetime _ => "datetime"

/-- Python `str.strip()` (ASCII whitespace; Python also strips the rare
further Unicode spaces, which no claim exercises). -/
def pyStrip (s : String) : String :=
  String.mk (((s.toList.dropWhile Char.isWhitespace).reverse.dropWhile
    Char.isWhitespace).reverse)

/-- Value of a digit list, most significant first. -/
def digitsToNat (l : List Char) : Nat :=
  l.foldl (fun a c => a * 10 + (c.toNat - 48)) 0

/-- One-or-more decimal digits, or failure. -/
def pyIntDigits (l : List Char) : Option Nat :=
  if l ≠ [] ∧ l.all Char.isDigit then some (digitsToNat l) else none

/-- Python `int(s)` on a string: optional sign then digits; anything
else raises (here: `none`).  Surrounding whitespace is stripped. -/
def pyInt (s : String) : Option Int :=
  match (pyStrip s).toList with
  | '+' :: resto => (pyIntDigits resto).map Int.ofNat
  | '-' :: resto => (pyIntDigits resto).map (fun n => -(n : Int))
  | l => (pyIntDigits l).map Int.ofNat

/-- Longest digit prefix and the remainder. -/
def takeDigits : List Char → List Char × List Char
  | [] => ([], [])
  | c :: resto =>
    if c.isDigit then
      let p := takeDigits resto
      (c :: p.1, p.2)
    else ([], c :: resto)

/-- Fractional part: consumes `'.'` followed by digits, if present. -/
def splitFrac : List Char → List Char × List Char
  | '.' :: resto => takeDigits resto
  | l => ([], l)

/-- Exponent of a float literal: optional sign then digits. -/
def pyFloatExp : List Char → Option Int
  | '+' :: resto => (pyIntDigits resto).map Int.ofNat
  | '-' :: resto => (pyIntDigits resto).map (fun n => -(n : Int))
  | l => (pyIntDigits l).map Int.ofNat

/-- Exact rational subtraction, written out on numerators and
denominators so that concrete runs reduce inside `decide`; proved equal
to `Sub.sub` in `qSub_eq` below. -/
def qSub (a b : ℚ) : ℚ :=
  Rat.divInt (a.num * b.den - b.num * a.den) (a.den * b.den)

/-- Exact rational multiplication; proved equal to `Mul.mul` in
`qMul_eq` below. -/
def qMul (a b : ℚ) : ℚ :=
  Rat.divInt (a.num * b.num) (a.den * b.den)

/-- Exact rational division (zero when the divisor is zero, as in `ℚ`);
proved equal to `Div.div` in `qDiv_eq` below. -/
def qDiv (a b : ℚ) : ℚ :=
  Rat.divInt (a.num * b.den) (a.den * b.num)

/-- The rational `n · 10 ^ e` for a natural mantissa and a signed
decimal exponent. -/
def ratScaled (n : Nat) (e : Int) : ℚ :=
  if 0 ≤ e then mkRat (n * 10 ^ e.toNat) 1 else mkRat n (10 ^ (-e).toNat)

/-- Unsigned part of Python's float literal grammar:
`digits [ '.' digits ] [ ('e'|'E') exp ]`, needing at least one digit
in the mantissa.  The value is mantissa digits over the matching power
of ten, scaled by the exponent. -/
def pyFloatMag (l : List Char) : Option ℚ :=
  let ip := takeDigits l
  let fp := splitFrac ip.2
  if ip.1 = [] ∧ fp.1 = [] then none
  else
    let mant := digitsToNat (ip.1 ++ fp.1)
    match fp.2 with
    | [] => some (ratScaled mant (-(fp.1.length : Int)))
    | c :: resto =>
      if c = 'e' ∨ c = 'E' then
        (pyFloatExp resto).map (fun e => ratScaled mant (e - fp.1.length))
      else none

/-- Python `float(s)` on a string: optional sign then the magnitude
grammar; anything else raises (here: `none`). -/
def pyFloat (s : String) : Option ℚ :=
  match (pyStrip s).toList with
  | '+' :: resto => pyFloatMag resto
  | '-' :: resto => (pyFloatMag resto).map Neg.neg
  | l => pyFloatMag l

/-- The `try: x = int(x) if x == x else 0 / except: x = 0` pattern of the
source: NaN fails the self-equality test (→ 0); `int()` of `None` or a
datetime raises (→ 0); `int()` truncates floats toward zero; an
unconvertible string raises (→ 0). -/
def toIntOr0 (c : Cell) : Int :=
  match c with
  | .nan => 0
  | .int n => n
  | .float q => if 0 ≤ q then q.floor else q.ceil
  | .str s => (pyInt s).getD 0
  | _ => 0

/-- The matching `float(...)`-with-default pattern used for
`Total (BRL)` in the marketplace importer. -/
def toFloatOr0 (c : Cell) : ℚ :=
  match c with
  | .nan => 0
  | .int n => Rat.ofInt n
  | .float q => q
  | .str s => (pyFloat s).getD 0
  | _ => 0

/-- `str.replace("R$", "")`: removes each occurrence of the two-char
currency marker, scanning left to right. -/
def stripRS : List Char → List Char
  | 'R' :: '$' :: resto => stripRS resto
  | c :: resto => c :: stripRS resto
  | [] => []

/-- `parse_brl` from `src/app.py`: `None` → 0.0, numeric NaN → 0.0,
numbers pass through, strings are stripped, cleaned of `R$`, no-break
spaces, spaces and thousands dots, the decimal comma becomes a dot, and
the result is floated with fallback 0.0.  A datetime cell follows the
string path (`str(valor)`), whose cleaned text never parses, hence 0. -/
def parse_brl (valor : Cell) : ℚ :=
  match valor with
  | .none => 0
  | .nan => 0
  | .int n => Rat.ofInt n
  | .float q => q
  | v =>
    let s := pyStrip (pyStr v)
    if s = "" then 0
    else
      let limpo := ((stripRS s.toList).filter
        (fun c => c != '\u00A0' && c != ' ' && c != '.')).map
        (fun c => if c = ',' then '.' else c)
      (pyFloat (String.mk limpo)).getD 0

/-- The `MESES_PT` month lexicon of the source, as an association list
(the Python dict has pairwise distinct keys). -/
def MESES_PT : List (String × Int) :=
  [("janeiro", 1), ("fevereiro", 2), ("março", 3), ("marco", 3),
   ("abril", 4), ("maio", 5), ("junho", 6), ("julho", 7),
   ("agosto", 8), ("setembro", 9), ("outubro", 10),
   ("novembro", 11), ("dezembro", 12)]

/-- Dict lookup `MESES_PT[nome]` (KeyError modelled as `none`). -/
def lookupMes (nome : String) : Option Int :=
  (MESES_PT.find? (fun p => p.1 = nome)).map (fun p => p.2)

/-- Gregorian leap-year rule used by Python's `datetime`. -/
def isLeap (y : Int) : Bool :=
  y % 4 == 0 && (y % 100 != 0 || y % 400 == 0)

/-- Days in a month, for `datetime`'s range validation. -/
def daysInMonth (y m : Int) : Int :=
  if m = 2 then (if isLeap y then 29 else 28)
  else if m = 4 ∨ m = 6 ∨ m = 9 ∨ m = 11 then 30
  else 31

/-- The `datetime(ano, mes, dia, hora, minuto)` constructor: out-of-range
fields raise `ValueError` (modelled as `none`, which the caller's
`except` turns into `None`). -/
def mkDatetime (y mo d h mi : Int) : Option PyDateTime :=
  if 1 ≤ y ∧ y ≤ 9999 ∧ 1 ≤ mo ∧ mo ≤ 12 ∧ 1 ≤ d ∧ d ≤ daysInMonth y mo
      ∧ 0 ≤ h ∧ h ≤ 23 ∧ 0 ≤ mi ∧ mi ≤ 59
  then some ⟨y, mo, d, h, mi⟩ else none

/-- Accumulator pass of Python `s.split(sep)` for a one-character
separator: splits at every occurrence, keeping empty pieces
(`"".split(":") == [""]`, `"14:".split(":") == ["14", ""]`). -/
def splitSepAux (sep : Char) (cur : List Char) : List Char → List (List Char)
  | [] => [cur.reverse]
  | c :: resto =>
    if c = sep then cur.reverse :: splitSepAux sep [] resto
    else splitSepAux sep (c :: cur) resto

/-- Python `s.split(sep)` with a one-character separator. -/
def pySplitSep (sep : Char) (s : String) : List String :=
  (splitSepAux sep [] s.toList).map String.mk

/-- Accumulator pass of Python `str.split()`: groups maximal runs of
non-whitespace characters, dropping the separators. -/
def splitWsAux (cur : List Char) : List Char → List (List Char)
  | [] => if cur = [] then [] else [cur.reverse]
  | c :: resto =>
    if c.isWhitespace then
      if cur = [] then splitWsAux [] resto
      else cur.reverse :: splitWsAux [] resto
    else splitWsAux (c :: cur) resto

/-- Python `texto.split()` (split on whitespace runs, no empty tokens). -/
def pySplit (s : String) : List String :=
  (splitWsAux [] s.toList).map String.mk

/-- The indexing-and-conversion body of `parse_data_venda`, applied to
the whitespace-split token list: `partes[0]` day, `partes[2]` month name
(lowercased), `partes[4]` year, `partes[5]` split on `":"` into exactly
hour and minute; an index out of range, failed `int`, unknown month
name or invalid date raises and is caught (→ `none`).  Tokens past
position 5 are ignored, as in the source. -/
def parseTokensVenda (partes : List String) : Option PyDateTime :=
  match partes with
  | t0 :: _ :: t2 :: _ :: t4 :: t5 :: _ =>
    match pyInt t0 with
    | none => none
    | some dia =>
      match lookupMes (String.mk (t2.toList.map Char.toLower)) with
      | none => none
      | some mes =>
        match pyInt t4 with
        | none => none
        | some ano =>
          match pySplitSep ':' t5 with
          | [hs, ms] =>
            match pyInt hs, pyInt ms with
            | some hora, some minuto => mkDatetime ano mes dia hora minuto
            | _, _ => none
          | _ => none
  | _ => none

/-- `parse_data_venda` from `src/app.py`: a native datetime passes
through; a non-string or a blank string (falsy `texto.strip()`, i.e.
all-whitespace) yields `None`; otherwise the token body runs under a
catch-all `except` returning `None`. -/
def parse_data_venda (texto : Cell) : Option PyDateTime :=
  match texto with
  | .datetime dt => some dt
  | .str s =>
    if s.toList.all Char.isWhitespace then none
    else parseTokensVenda (pySplit s)
  | _ => none

/-- A row of the `produtos` table (the columns the import path reads or
writes: primary key, display name, nullable unique SKU, unit cost,
current stock).  `custo_unitario` is a `NOT NULL` float column with
default 0, so the source's `float(produto_row["custo_unitario"] or 0.0)`
is the identity on it (it only maps `NULL`/`0` to `0.0`). -/
structure Produto where
  id : Int
  nome : String
  sku : Option String
  custo_unitario : ℚ
  estoque_atual : Int
  deriving DecidableEq, Repr

/-- A row of the `vendas` table as built by the import paths.  The
database stores `data_venda` as an ISO string or `NULL`; here it is the
parsed datetime itself (the template path stores the import wall-clock
time, passed in as `agora`). -/
structure Venda where
  produto_id : Int
  data_venda : Option PyDateTime
  quantidade : Int
  preco_venda_unitario : ℚ
  receita_total : ℚ
  custo_total : ℚ
  margem_contribuicao : ℚ
  origem : String
  numero_venda_ml : Option String
  lote_importacao : String
  deriving DecidableEq, Repr

/-- A data row of the `Vendas BR` sheet, restricted to the columns the
  importer touches, plus the export's commission/fee column (`tarifa`):
that column is present in the marketplace export but `importar_vendas_ml`
never reads it (there is no `row.get` for it in the source); it is
carried here only so that statements about the row's commission cell can
be expressed. -/
structure MLRow where
  numeroVenda : Cell
  sku : Cell
  titulo : Cell
  dataVenda : Cell
  unidades : Cell
  totalBRL : Cell
  tarifa : Cell
  deriving DecidableEq, Repr

/-- The dataframe read from sheet `Vendas BR` with `header=5`: its
column-name list (checked for `N.º de venda`) and its typed rows. -/
structure MLSheet where
  columns : List String
  rows : List MLRow
  deriving DecidableEq, Repr

/-- A data row of the consolidation template (`PrecoMedio` is a required
column but, per the source's `Opção 2` comment, its cells are never
read). -/
structure TemplateRow where
  sku : Cell
  titulo : Cell
  quantidade : Cell
  receita : Cell
  comissao : Cell
  precoMedio : Cell
  deriving DecidableEq, Repr

/-- A dataframe for the template import path. -/
structure TemplateSheet where
  columns : List String
  rows : List TemplateRow
  deriving DecidableEq, Repr

/-- Mutable state threaded through one import invocation: the `produtos`
table, the `vendas` rows inserted so far in this batch, and the three
summary counters. -/
structure ImportState where
  catalogo : List Produto
  vendas : List Venda
  vendas_importadas : Nat
  vendas_sem_sku : Nat
  vendas_sem_produto : Nat
  deriving DecidableEq, Repr

/-- `str(row.get(col) or "").strip()`: a falsy cell (`None`, `0`, `0.0`,
`""`) becomes the empty string before `str`. -/
def strOrBlank (c : Cell) : String :=
  pyStrip (pyStr (if c.truthy then c else Cell.str ""))

/-- `SELECT id, custo_unitario FROM produtos WHERE sku = :sku` and
`.first()`: first row in table order; a `NULL` SKU never matches. -/
def findBySku (cat : List Produto) (sku : String) : Option Produto :=
  cat.find? (fun p => p.sku = some sku)

/-- `SELECT ... WHERE nome = :titulo` and `.first()`. -/
def findByNome (cat : List Produto) (nome : String) : Option Produto :=
  cat.find? (fun p => p.nome = nome)

/-- Product resolution in `importar_vendas_ml`: lookup by SKU when the
SKU string is non-blank, otherwise (and only then) by exact title. -/
def buscaProdutoML (cat : List Produto) (sku titulo : String) : Option Produto :=
  if sku ≠ "" then findBySku cat sku
  else if titulo ≠ "" then findByNome cat titulo
  else none

/-- Product resolution in `importar_vendas_template`: lookup by SKU when
non-blank; if that produced nothing, fall back to exact title. -/
def buscaProdutoTemplate (cat : List Produto) (sku titulo : String) :
    Option Produto :=
  match (if sku ≠ "" then findBySku cat sku else none) with
  | some p => some p
  | none => if titulo ≠ "" then findByNome cat titulo else none

/-- `UPDATE produtos SET estoque_atual = estoque_atual - :qtd
WHERE id = :pid`. -/
def decrementaEstoque (cat : List Produto) (pid : Int) (qtd : Int) :
    List Produto :=
  cat.map (fun p =>
    if p.id = pid then { p with estoque_atual := p.estoque_atual - qtd }
    else p)

/-- The loop body of `importar_vendas_ml` for one (already
order-number-filtered) row: classify, then insert a sale and decrement
stock. -/
def processMLRow (lote : String) (st : ImportState) (row : MLRow) :
    ImportState :=
  let sku := strOrBlank row.sku
  let titulo := strOrBlank row.titulo
  let produto_row := buscaProdutoML st.catalogo sku titulo
  if sku = "" ∧ produto_row = none then
    { st with vendas_sem_sku := st.vendas_sem_sku + 1 }
  else
    match produto_row with
    | none => { st with vendas_sem_produto := st.vendas_sem_produto + 1 }
    | some p =>
      let custo_unitario := p.custo_unitario
      let data_venda := parse_data_venda row.dataVenda
      let unidades := toIntOr0 row.unidades
      let receita_total := toFloatOr0 row.totalBRL
      let preco_medio_venda :=
        if 0 < unidades then qDiv receita_total (Rat.ofInt unidades) else 0
      let custo_total := qMul custo_unitario (Rat.ofInt unidades)
      let margem_contribuicao := qSub receita_total custo_total
      let v : Venda :=
        { produto_id := p.id, data_venda := data_venda,
          quantidade := unidades, preco_venda_unitario := preco_medio_venda,
          receita_total := receita_total, custo_total := custo_total,
          margem_contribuicao := margem_contribuicao,
          origem := "Mercado Livre",
          numero_venda_ml := some (pyStr row.numeroVenda),
          lote_importacao := lote }
      { st with
        catalogo := decrementaEstoque st.catalogo p.id unidades,
        vendas := st.vendas ++ [v],
        vendas_importadas := st.vendas_importadas + 1 }

/-- The required-column name of the marketplace export. -/
def colunaNumVenda : String := "N.º de venda"

/-- The format-error message of `importar_vendas_ml`. -/
def erroFormatoML : String :=
  "Planilha não está no formato esperado: coluna 'N.º de venda' não encontrada."

/-- `importar_vendas_ml` from `src/app.py`.  `leitura` is the outcome of
`pd.read_excel(..., sheet_name="Vendas BR", header=5)` (a raised read
error propagates untouched, before any database work).  On success:
check the order-number column, drop rows whose order-number cell is NA,
then run the transaction body over the remaining rows, starting from the
given catalog with no sales and zero counters.  An error return carries
no state: nothing was inserted and no stock changed. -/
def importar_vendas_ml (lote : String) (cat : List Produto)
    (leitura : Except String MLSheet) : Except String ImportState :=
  match leitura with
  | .error e => .error e
  | .ok df =>
    if colunaNumVenda ∈ df.columns then
      .ok ((df.rows.filter (fun r => !r.numeroVenda.isNA)).foldl
        (processMLRow lote) ⟨cat, [], 0, 0, 0⟩)
    else .error erroFormatoML

/-- The required-column set of the template import. -/
def colunasObrig : List String :=
  ["SKU", "Título", "Quantidade", "Receita", "Comissao", "PrecoMedio"]

/-- The format-error message of `importar_vendas_template`. -/
def erroFormatoTemplate : String :=
  "Planilha não está no formato esperado: colunas 'SKU, Título, Quantidade, Receita, Comissao, PrecoMedio' são obrigatórias."

/-- The `try: read sheet "Template" / except: read first sheet` step of
`importar_vendas_template`. -/
def escolheAba (leituraTemplate : Except String TemplateSheet)
    (primeiraAba : TemplateSheet) : TemplateSheet :=
  match leituraTemplate with
  | .ok df => df
  | .error _ => primeiraAba

/-- The loop body of `importar_vendas_template` for one row: skip
non-positive quantities, parse money through `parse_brl`, classify,
then insert a sale (margin net of commission) and decrement stock. -/
def processTemplateRow (lote : String) (agora : PyDateTime)
    (st : ImportState) (row : TemplateRow) : ImportState :=
  let sku := strOrBlank row.sku
  let titulo := strOrBlank row.titulo
  let quantidade := toIntOr0 row.quantidade
  if quantidade ≤ 0 then st
  else
    let receita_total := parse_brl row.receita
    let comissao := parse_brl row.comissao
    let produto_row := buscaProdutoTemplate st.catalogo sku titulo
    if sku = "" ∧ produto_row = none then
      { st with vendas_sem_sku := st.vendas_sem_sku + 1 }
    else
      match produto_row with
      | none => { st with vendas_sem_produto := st.vendas_sem_produto + 1 }
      | some p =>
        let custo_total := qMul p.custo_unitario (Rat.ofInt quantidade)
        let margem_bruta := qSub receita_total custo_total
        let margem_contribuicao := qSub margem_bruta comissao
        let preco_venda_unitario :=
          if 0 < quantidade then qDiv receita_total (Rat.ofInt quantidade)
          else 0
        let v : Venda :=
          { produto_id := p.id, data_venda := some agora,
            quantidade := quantidade,
            preco_venda_unitario := preco_venda_unitario,
            receita_total := receita_total, custo_total := custo_total,
            margem_contribuicao := margem_contribuicao,
            origem := "Template", numero_venda_ml := none,
            lote_importacao := lote }
        { st with
          catalogo := decrementaEstoque st.catalogo p.id quantidade,
          vendas := st.vendas ++ [v],
          vendas_importadas := st.vendas_importadas + 1 }

/-- `importar_vendas_template` from `src/app.py`: read the `Template`
sheet, falling back to the first sheet on any read failure; require the
six template columns; then run the transaction body.  As with the
marketplace variant, an error return carries no state. -/
def importar_vendas_template (lote : String) (agora : PyDateTime)
    (cat : List Produto) (leituraTemplate : Except String TemplateSheet)
    (primeiraAba : TemplateSheet) : Except String ImportState :=
  if colunasObrig.all
      (fun c => c ∈ (escolheAba leituraTemplate primeiraAba).columns) then
    .ok ((escolheAba leituraTemplate primeiraAba).rows.foldl
      (processTemplateRow lote agora) ⟨cat, [], 0, 0, 0⟩)
  else .error erroFormatoTemplate

/-- Total quantity of the batch's sale records against product `pid`. -/
def vendidoPara (vs : List Venda) (pid : Int) : Int :=
  ((vs.filter (fun v => v.produto_id = pid)).map Venda.quantidade).sum

/-- Catalog-entry correspondence underlying claim C1: the entry is
unchanged except that its stock went down by exactly the quantity this
batch sold against its id. -/
def produtoCorresponde (vs : List Venda) (p p₀ : Produto) : Prop :=
  p.id = p₀.id ∧ p.nome = p₀.nome ∧ p.sku = p₀.sku ∧
  p.custo_unitario = p₀.custo_unitario ∧
  p.estoque_atual = p₀.estoque_atual - vendidoPara vs p.id

/-- The batch-level stock invariant: every catalog entry after the batch
corresponds (entrywise) to its pre-batch version. -/
def estoqueConsistente (cat₀ : List Produto) (st : ImportState) : Prop :=
  List.Forall₂ (produtoCorresponde st.vendas) st.catalogo cat₀

/-- Sample catalog for the batch-invariant claim: one product, cost 2,
stock 10. -/
def c1Cat : List Produto :=
  [{ id := 1, nome := "Caneca", sku := some "SKU1",
     custo_unitario := Rat.ofInt 2, estoque_atual := 10 }]

/-- Sample marketplace row matched by SKU: 3 units, 50 BRL total. -/
def c1RowML : MLRow :=
  { numeroVenda := Cell.str "100", sku := Cell.str "SKU1",
    titulo := Cell.str "Caneca", dataVenda := Cell.none,
    unidades := Cell.int 3, totalBRL := Cell.int 50, tarifa := Cell.none }

/-- Sample marketplace sheet holding `c1RowML`. -/
def c1SheetML : MLSheet := { columns := [colunaNumVenda], rows := [c1RowML] }

/-- Sample template row matched by SKU: 2 units, R$ 20,00, R$ 1,00 fee. -/
def c1RowT : TemplateRow :=
  { sku := Cell.str "SKU1", titulo := Cell.str "Caneca",
    quantidade := Cell.int 2, receita := Cell.str "R$ 20,00",
    comissao := Cell.str "R$ 1,00", precoMedio := Cell.none }

/-- Sample template sheet holding `c1RowT`. -/
def c1SheetT : TemplateSheet := { columns := colunasObrig, rows := [c1RowT] }

/-- Import wall-clock time used in sample template runs. -/
def c1Agora : PyDateTime := ⟨2025, 1, 1, 12, 0⟩

/-- The state produced by the sample marketplace import. -/
def c1StML : ImportState :=
  (importar_vendas_ml "L1" c1Cat (Except.ok c1SheetML)).toOption.getD
    ⟨[], [], 0, 0, 0⟩

/-- The state produced by the sample template import. -/
def c1StT : ImportState :=
  (importar_vendas_template "L1" c1Agora c1Cat (Except.error "sem aba")
    c1SheetT).toOption.getD ⟨[], [], 0, 0, 0⟩

/-- Catalog for the commission counterexample: cost-0 product. -/
def c2Cat : List Produto :=
  [{ id := 7, nome := "Tapete", sku := some "TAP",
     custo_unitario := 0, estoque_atual := 5 }]

/-- Marketplace row whose commission/fee cell holds 10: the importer
never reads it. -/
def c2Row : MLRow :=
  { numeroVenda := Cell.str "200", sku := Cell.str "TAP",
    titulo := Cell.str "Tapete", dataVenda := Cell.none,
    unidades := Cell.int 1, totalBRL := Cell.int 100,
    tarifa := Cell.int 10 }

/-- Sheet holding `c2Row`. -/
def c2Sheet : MLSheet := { columns := [colunaNumVenda], rows := [c2Row] }

/-- The state produced by importing `c2Sheet`. -/
def c2St : ImportState :=
  (importar_vendas_ml "L2" c2Cat (Except.ok c2Sheet)).toOption.getD
    ⟨[], [], 0, 0, 0⟩

/-- The single sale record that importing `c2Sheet` creates (margin
100: the fee cell was ignored). -/
def c2Venda : Venda :=
  { produto_id := 7, data_venda := none, quantidade := 1,
    preco_venda_unitario := Rat.ofInt 100, receita_total := Rat.ofInt 100,
    custo_total := 0, margem_contribuicao := Rat.ofInt 100,
    origem := "Mercado Livre", numero_venda_ml := some "200",
    lote_importacao := "L2" }

/-- The sale record inserted by processing the sample template row
`c1RowT` from a fresh batch state (margin 15 = 20 − 4 − 1). -/
def c2VendaTpl : Venda :=
  { produto_id := 1, data_venda := some ⟨2025, 1, 1, 12, 0⟩,
    quantidade := 2, preco_venda_unitario := Rat.ofInt 10,
    receita_total := Rat.ofInt 20, custo_total := Rat.ofInt 4,
    margem_contribuicao := Rat.ofInt 15, origem := "Template",
    numero_venda_ml := none, lote_importacao := "L1" }

/-- Catalog for the lookup-fallback counterexample: the product's title
is importable but its SKU is not the one on the row. -/
def c3Cat : List Produto :=
  [{ id := 3, nome := "Luminária", sku := some "LUM",
     custo_unitario := Rat.ofInt 1, estoque_atual := 4 }]

/-- Marketplace row with a non-blank SKU unknown to the catalog and a
title that matches `c3Cat`'s product exactly. -/
def c3Row : MLRow :=
  { numeroVenda := Cell.str "300", sku := Cell.str "XYZ",
    titulo := Cell.str "Luminária", dataVenda := Cell.none,
    unidades := Cell.int 1, totalBRL := Cell.int 30, tarifa := Cell.none }

/-- Sheet holding `c3Row`. -/
def c3Sheet : MLSheet := { columns := [colunaNumVenda], rows := [c3Row] }

deriving instance DecidableEq for Except

/-- Exact rational subtraction agrees with `Sub.sub` on `ℚ`. -/
theorem qSub_eq (a b : ℚ) : qSub a b = a - b := by
  have ha : ((a.den : ℤ)) ≠ 0 := Int.natCast_ne_zero.mpr a.den_nz
  have hb : ((b.den : ℤ)) ≠ 0 := Int.natCast_ne_zero.mpr b.den_nz
  rw [qSub]
  conv_rhs => rw [← Rat.num_divInt_den a, ← Rat.num_divInt_den b]
  rw [Rat.divInt_sub_divInt _ _ ha hb]

/-- Exact rational multiplication agrees with `Mul.mul` on `ℚ`. -/
theorem qMul_eq (a b : ℚ) : qMul a b = a * b := by
  rw [qMul]
  conv_rhs => rw [← Rat.num_divInt_den a, ← Rat.num_divInt_den b]
  rw [Rat.divInt_mul_divInt']

/-- Exact rational division agrees with `Div.div` on `ℚ`. -/
theorem qDiv_eq (a b : ℚ) : qDiv a b = a / b := (Rat.div_def' a b).symm

/-- A whitespace character is not a digit, a slash or a dash. -/
theorem not_whitespace_of_shape {c : Char}
    (h : c.isDigit = true ∨ c = '/' ∨ c = '-') : c.isWhitespace = false := by
  rcases h with h | h | h
  · by_contra hw
    have hw' : c.isWhitespace = true := by
      cases hv : c.isWhitespace
      · exact absurd hv hw
      · rfl
    have : ((c = ' ' ∨ c = '\t') ∨ c = '\x0d') ∨ c = '\n' := by
      simpa [Char.isWhitespace] using hw'
    rcases this with ((h' | h') | h') | h' <;> subst h' <;> simp at h
  · subst h; rfl
  · subst h; rfl

/-- `splitWsAux` on a whitespace-free suffix returns the accumulated
token extended with it. -/
theorem splitWsAux_no_ws (l : List Char)
    (h : ∀ c ∈ l, c.isWhitespace = false) :
    ∀ acc : List Char, acc ≠ [] ∨ l ≠ [] →
      splitWsAux acc l = [acc.reverse ++ l] := by
  induction l with
  | nil =>
    intro acc hacc
    rcases hacc with hacc | hacc
    · simp [splitWsAux, hacc]
    · exact absurd rfl hacc
  | cons c resto ih =>
    intro acc _
    have hc : c.isWhitespace = false := h c (List.mem_cons_self c resto)
    have hresto : ∀ x ∈ resto, x.isWhitespace = false :=
      fun x hx => h x (List.mem_cons_of_mem c hx)
    simp only [splitWsAux, hc, Bool.false_eq_true, if_false]
    rw [ih hresto (c :: acc) (Or.inl (List.cons_ne_nil c acc))]
    simp

/-- `splitWsAux` starting empty on all-whitespace input returns no
tokens. -/
theorem splitWsAux_all_ws (l : List Char)
    (h : ∀ c ∈ l, c.isWhitespace = true) : splitWsAux [] l = [] := by
  induction l with
  | nil => rfl
  | cons c resto ih =>
    have hc := h c (List.mem_cons_self c resto)
    simp only [splitWsAux, hc, if_true]
    exact ih (fun x hx => h x (List.mem_cons_of_mem c hx))

/-- `pySplit` of an all-whitespace string is empty. -/
theorem pySplit_all_ws (s : String)
    (h : s.toList.all Char.isWhitespace = true) : pySplit s = [] := by
  rw [pySplit, splitWsAux_all_ws]
  · rfl
  · exact fun c hc => by
      have := List.all_eq_true.mp h c hc
      exact this

/-- `pySplit` of a nonempty whitespace-free string is that single
token. -/
theorem pySplit_single (s : String) (hne : s.toList ≠ [])
    (h : ∀ c ∈ s.toList, c.isWhitespace = false) :
    pySplit s = [s] := by
  rw [pySplit, splitWsAux_no_ws s.toList h [] (Or.inr hne)]
  simp only [List.reverse_nil, List.nil_append, List.map]
  rfl

/-- The blank-or-not split in `parse_data_venda` is subsumed by token
processing: an all-whitespace string splits into no tokens, and no
tokens fail the position-0 index anyway. -/
theorem parse_data_venda_str (s : String) :
    parse_data_venda (Cell.str s) = parseTokensVenda (pySplit s) := by
  rw [parse_data_venda]
  by_cases h : s.toList.all Char.isWhitespace
  · rw [if_pos h, pySplit_all_ws s h]
    rfl
  · rw [if_neg h]

/-- Fewer than six tokens always fail (`partes[5]` raises). -/
theorem parseTokensVenda_short (partes : List String)
    (h : partes.length < 6) : parseTokensVenda partes = none := by
  rcases partes with _ | ⟨a, _ | ⟨b, _ | ⟨c, _ | ⟨d, _ | ⟨e, _ | ⟨f, resto⟩⟩⟩⟩⟩⟩
  · rfl
  · rfl
  · rfl
  · rfl
  · rfl
  · rfl
  · simp only [List.length_cons] at h
    omega

/-- Every month entry of the lexicon is a number in 1..12. -/
theorem lookupMes_bounds {nome : String} {m : Int}
    (h : lookupMes nome = some m) : 1 ≤ m ∧ m ≤ 12 := by
  rw [lookupMes] at h
  cases hf : List.find? (fun p => decide (p.1 = nome)) MESES_PT with
  | none => rw [hf] at h; simp at h
  | some p =>
    rw [hf] at h
    simp only [Option.map_some', Option.some.injEq] at h
    have hmem : p ∈ MESES_PT := List.mem_of_find?_eq_some hf
    have hall : ∀ x ∈ MESES_PT, 1 ≤ x.2 ∧ x.2 ≤ 12 := by decide
    exact h ▸ hall p hmem

/-- C5 (amended): `parse_data_venda` does not understand the simple
date forms `DD/MM/YYYY` and `YYYY-MM-DD`: any nonempty whitespace-free
string made of digits, slashes and dashes — which covers both shapes —
splits into a single token, fails the position-0 `int` conversion (or
the position-5 index), and yields `none`.  Only datetime pass-through
and the six-token long Portuguese form are accepted. -/
theorem C5_simple_forms_yield_none (s : String) (hne : s.toList ≠ [])
    (hshape : ∀ c ∈ s.toList, c.isDigit = true ∨ c = '/' ∨ c = '-') :
    parse_data_venda (Cell.str s) = none := by
  have hws : ∀ c ∈ s.toList, c.isWhitespace = false :=
    fun c hc => not_whitespace_of_shape (hshape c hc)
  rw [parse_data_venda_str, pySplit_single s hne hws]
  rfl

/-- C5 (counterexample): the spec's example `parse_date("31/12/2023")
== 2023-12-31` fails on the code — both simple forms parse to `None`. -/
theorem C5_counterexample :
    parse_data_venda (Cell.str "31/12/2023") = none ∧
    parse_data_venda (Cell.str "2023-12-31") = none := by
  exact ⟨by decide, by decide⟩

/-- C5 (witness). -/
theorem C5_simple_forms_yield_none_witness :
    parse_data_venda (Cell.str "01/02/2003") = none :=
  C5_simple_forms_yield_none "01/02/2003" (by decide) (by decide)

/-- C6: the long Portuguese form.  (1) For any string whose
whitespace-split tokens put an `int`-convertible day at position 0, a
lexicon month name (after lowercasing) at position 2, an
`int`-convertible year at position 4 and `HH:MM` at position 5, with
all fields in `datetime`'s ranges, the parser returns exactly that
datetime.  (2) Fewer than six tokens yield `none`.  (3) An unknown
month name yields `none`.  (4) A non-numeric day token yields `none`.
The function is total, so parse failures never raise. -/
theorem C6_long_form :
    (∀ (s t0 t1 t2 t3 t4 t5 : String) (resto : List String)
        (dia mes ano hora minuto : Int) (hs ms : String),
        pySplit s = t0 :: t1 :: t2 :: t3 :: t4 :: t5 :: resto →
        pyInt t0 = some dia →
        lookupMes (String.mk (t2.toList.map Char.toLower)) = some mes →
        pyInt t4 = some ano →
        pySplitSep ':' t5 = [hs, ms] →
        pyInt hs = some hora → pyInt ms = some minuto →
        1 ≤ ano → ano ≤ 9999 → 1 ≤ dia → dia ≤ daysInMonth ano mes →
        0 ≤ hora → hora ≤ 23 → 0 ≤ minuto → minuto ≤ 59 →
        parse_data_venda (Cell.str s) = some ⟨ano, mes, dia, hora, minuto⟩) ∧
    (∀ s : String, (pySplit s).length < 6 →
        parse_data_venda (Cell.str s) = none) ∧
    (∀ (s t0 t1 t2 t3 t4 t5 : String) (resto : List String),
        pySplit s = t0 :: t1 :: t2 :: t3 :: t4 :: t5 :: resto →
        lookupMes (String.mk (t2.toList.map Char.toLower)) = none →
        parse_data_venda (Cell.str s) = none) ∧
    (∀ (s t0 t1 t2 t3 t4 t5 : String) (resto : List String),
        pySplit s = t0 :: t1 :: t2 :: t3 :: t4 :: t5 :: resto →
        pyInt t0 = none →
        parse_data_venda (Cell.str s) = none) := by
  refine ⟨?_, ?_, ?_, ?_⟩
  · intro s t0 t1 t2 t3 t4 t5 resto dia mes ano hora minuto hs ms
      hsplit hdia hmes hano hhm hh hm hy1 hy2 hd1 hd2 hh1 hh2 hm1 hm2
    have hmesb := lookupMes_bounds hmes
    rw [parse_data_venda_str, hsplit]
    simp only [parseTokensVenda, hdia, hmes, hano, hhm, hh, hm]
    rw [mkDatetime, if_pos]
    exact ⟨hy1, hy2, hmesb.1, hmesb.2, hd1, hd2, hh1, hh2, hm1, hm2⟩
  · intro s h
    rw [parse_data_venda_str]
    exact parseTokensVenda_short _ h
  · intro s t0 t1 t2 t3 t4 t5 resto hsplit hmes
    rw [parse_data_venda_str, hsplit]
    simp only [String.toList] at hmes
    rcases h0 : pyInt t0 with _ | dia <;>
      simp [parseTokensVenda, h0, hmes, String.toList]
  · intro s t0 t1 t2 t3 t4 t5 resto hsplit h0
    rw [parse_data_venda_str, hsplit]
    simp [parseTokensVenda, h0]

/-- C6 (witness): the spec's own example
`parse_date("05 de março de 2024 14:30") == 2024-03-05T14:30`. -/
theorem C6_long_form_witness :
    parse_data_venda (Cell.str "05 de março de 2024 14:30") =
      some ⟨2024, 3, 5, 14, 30⟩ :=
  C6_long_form.1 "05 de março de 2024 14:30" "05" "de" "março" "de" "2024"
    "14:30" [] 5 3 2024 14 30 "14" "30" (by decide) (by decide) (by decide)
    (by decide) (by decide) (by decide) (by decide) (by decide) (by decide)
    (by decide) (by decide) (by decide) (by decide) (by decide) (by decide)

/-- C4: the `parse_brl` contract.  `None` → 0; numeric NaN → 0; an int
passes through as a float (`parse_brl(10) == 10.0`); a float passes
through unchanged; the documented string examples
(`"R$ 1.234,56"` → 1234.56 after symbol/space/thousands-dot removal and
comma-to-dot, `"not a number"` → 0); the function is total, so no
input raises. -/
theorem C4_parse_brl_contract :
    parse_brl Cell.none = 0 ∧
    parse_brl Cell.nan = 0 ∧
    (∀ n : Int, parse_brl (Cell.int n) = (n : ℚ)) ∧
    (∀ q : ℚ, parse_brl (Cell.float q) = q) ∧
    parse_brl (Cell.int 10) = 10 ∧
    parse_brl (Cell.str "R$ 1.234,56") = 1234.56 ∧
    parse_brl (Cell.str "not a number") = 0 := by
  refine ⟨rfl, rfl, fun n => Rat.ofInt_eq_cast n, fun q => rfl, ?_, ?_, ?_⟩
  · rw [show parse_brl (Cell.int 10) = Rat.ofInt 10 from rfl,
      Rat.ofInt_eq_cast]
    norm_num
  · rw [show parse_brl (Cell.str "R$ 1.234,56") = mkRat 123456 100
      from by decide]
    rw [Rat.mkRat_eq_divInt, Rat.divInt_eq_div]
    norm_num
  · decide

/-- Appending one sale adds its quantity to its product's batch total
and nothing to any other product's. -/
theorem vendidoPara_append (vs : List Venda) (v : Venda) (pid : Int) :
    vendidoPara (vs ++ [v]) pid =
      vendidoPara vs pid +
        (if v.produto_id = pid then v.quantidade else 0) := by
  rw [vendidoPara, vendidoPara, List.filter_append, List.map_append,
    List.sum_append]
  by_cases h : v.produto_id = pid
  · simp [List.filter, h]
  · simp [List.filter, h]

/-- Pointwise strengthening of `List.Forall₂` under a left map. -/
theorem forall₂_map_left {α β : Type} {R S : α → β → Prop} (f : α → α)
    {l : List α} {l₀ : List β} (h : List.Forall₂ R l l₀)
    (himp : ∀ a b, R a b → S (f a) b) :
    List.Forall₂ S (l.map f) l₀ := by
  induction h with
  | nil => exact List.Forall₂.nil
  | cons hab _ ih => exact List.Forall₂.cons (himp _ _ hab) ih

/-- Inserting a sale for product `pid` and decrementing `pid`'s stock by
the same quantity preserves the per-product correspondence. -/
theorem corresponde_passo (vs : List Venda) (v : Venda) (pid : Int)
    (hv : v.produto_id = pid) (a : Produto) (b : Produto)
    (hab : produtoCorresponde vs a b) :
    produtoCorresponde (vs ++ [v])
      (if a.id = pid then
        { a with estoque_atual := a.estoque_atual - v.quantidade }
      else a) b := by
  obtain ⟨hid, hnome, hsku, hcusto, hest⟩ := hab
  by_cases hap : a.id = pid
  · rw [if_pos hap]
    refine ⟨hid, hnome, hsku, hcusto, ?_⟩
    show a.estoque_atual - v.quantidade =
      b.estoque_atual - vendidoPara (vs ++ [v]) a.id
    rw [vendidoPara_append, if_pos (by rw [hv, hap])]
    omega
  · rw [if_neg hap]
    refine ⟨hid, hnome, hsku, hcusto, ?_⟩
    show a.estoque_atual = b.estoque_atual - vendidoPara (vs ++ [v]) a.id
    rw [vendidoPara_append, if_neg (by rw [hv]; exact fun hh => hap hh.symm)]
    omega

/-- One marketplace row preserves the batch stock invariant. -/
theorem processMLRow_consistente (lote : String) (cat₀ : List Produto)
    (st : ImportState) (row : MLRow)
    (h : estoqueConsistente cat₀ st) :
    estoqueConsistente cat₀ (processMLRow lote st row) := by
  rw [estoqueConsistente] at h ⊢
  simp only [processMLRow]
  split
  · exact h
  · split
    · exact h
    · rename_i p heq
      exact forall₂_map_left _ h (corresponde_passo st.vendas _ p.id rfl)

/-- One template row preserves the batch stock invariant. -/
theorem processTemplateRow_consistente (lote : String)
    (agora : PyDateTime) (cat₀ : List Produto) (st : ImportState)
    (row : TemplateRow) (h : estoqueConsistente cat₀ st) :
    estoqueConsistente cat₀ (processTemplateRow lote agora st row) := by
  rw [estoqueConsistente] at h ⊢
  simp only [processTemplateRow]
  split
  · exact h
  · split
    · exact h
    · split
      · exact h
      · rename_i p heq
        exact forall₂_map_left _ h (corresponde_passo st.vendas _ p.id rfl)

/-- A property preserved by the loop body holds after the whole loop. -/
theorem foldl_preserva {α : Type} (P : ImportState → Prop)
    (f : ImportState → α → ImportState)
    (hf : ∀ st a, P st → P (f st a)) :
    ∀ (l : List α) (st : ImportState), P st → P (l.foldl f st) := by
  intro l
  induction l with
  | nil => exact fun st h => h
  | cons a resto ih => exact fun st h => ih (f st a) (hf st a h)

/-- The pre-batch state satisfies the invariant (no sales, stock
untouched). -/
theorem estoqueConsistente_inicial (cat : List Produto) :
    estoqueConsistente cat ⟨cat, [], 0, 0, 0⟩ := by
  show List.Forall₂ (produtoCorresponde []) cat cat
  induction cat with
  | nil => exact List.Forall₂.nil
  | cons p resto ih =>
    refine List.Forall₂.cons ⟨rfl, rfl, rfl, rfl, ?_⟩ ih
    have hz : vendidoPara [] p.id = 0 := rfl
    omega

/-- C1: for either import variant, when the batch commits (`.ok`),
every catalog entry equals its pre-batch version on id, name, SKU and
unit cost, with its stock decreased by exactly the summed quantities of
the batch's sale records referencing its id (`estoqueConsistente`).
This is the paired insert/decrement discipline: each inserted sale is
matched by one same-quantity decrement of the matched product, and no
stock moves without a matching inserted sale — per product, net stock
change and recorded quantity coincide exactly. -/
theorem C1_estoque_apos_lote :
    (∀ (lote : String) (cat : List Produto)
        (leitura : Except String MLSheet) (st : ImportState),
        importar_vendas_ml lote cat leitura = .ok st →
        estoqueConsistente cat st) ∧
    (∀ (lote : String) (agora : PyDateTime) (cat : List Produto)
        (leituraTemplate : Except String TemplateSheet)
        (primeiraAba : TemplateSheet) (st : ImportState),
        importar_vendas_template lote agora cat leituraTemplate primeiraAba
          = .ok st →
        estoqueConsistente cat st) := by
  constructor
  · intro lote cat leitura st h
    cases leitura with
    | error e => exact absurd h (by simp [importar_vendas_ml])
    | ok df =>
      rw [importar_vendas_ml] at h
      by_cases hcol : colunaNumVenda ∈ df.columns
      · rw [if_pos hcol] at h
        injection h with h2
        rw [← h2]
        exact foldl_preserva (estoqueConsistente cat) _
          (fun s r hs => processMLRow_consistente lote cat s r hs) _ _
          (estoqueConsistente_inicial cat)
      · rw [if_neg hcol] at h
        cases h
  · intro lote agora cat lt pa st h
    rw [importar_vendas_template] at h
    by_cases hcol : colunasObrig.all (fun c => c ∈ (escolheAba lt pa).columns)
    · rw [if_pos hcol] at h
      injection h with h2
      rw [← h2]
      exact foldl_preserva (estoqueConsistente cat) _
        (fun s r hs => processTemplateRow_consistente lote agora cat s r hs)
        _ _ (estoqueConsistente_inicial cat)
    · rw [if_neg hcol] at h
      cases h

/-- C1 (witness): a concrete marketplace import (3 units sold, stock
10 → 7) and a concrete template import (2 units sold, stock 10 → 8)
against the one-product sample catalog. -/
theorem C1_estoque_apos_lote_witness :
    estoqueConsistente c1Cat c1StML ∧ estoqueConsistente c1Cat c1StT :=
  ⟨C1_estoque_apos_lote.1 "L1" c1Cat (Except.ok c1SheetML) c1StML
      (by decide),
   C1_estoque_apos_lote.2 "L1" c1Agora c1Cat (Except.error "sem aba")
      c1SheetT c1StT (by decide)⟩

/-- One marketplace row preserves "margin = revenue − cost" across the
batch's sales. -/
theorem processMLRow_margem (lote : String) (st : ImportState)
    (row : MLRow)
    (h : ∀ v ∈ st.vendas,
      v.margem_contribuicao = v.receita_total - v.custo_total) :
    ∀ v ∈ (processMLRow lote st row).vendas,
      v.margem_contribuicao = v.receita_total - v.custo_total := by
  simp only [processMLRow]
  split
  · exact h
  · split
    · exact h
    · rename_i p heq
      intro v hv
      rcases List.mem_append.mp hv with hv | hv
      · exact h v hv
      · rw [List.mem_singleton] at hv
        subst hv
        exact qSub_eq _ _

/-- C2 (amended): the two variants do not share one commission
contract.  (1) Every sale record committed by `importar_vendas_ml` has
`margin = revenue − cost`: the marketplace export's commission/fee cell
is never read and never deducted.  (2) Every sale record inserted by a
template row has `margin = revenue − cost − parse_brl(commission)`:
only the template variant nets out commission as a deduction. -/
theorem C2_margem_amended :
    (∀ (lote : String) (cat : List Produto)
        (leitura : Except String MLSheet) (st : ImportState),
        importar_vendas_ml lote cat leitura = .ok st →
        ∀ v ∈ st.vendas,
          v.margem_contribuicao = v.receita_total - v.custo_total) ∧
    (∀ (lote : String) (agora : PyDateTime) (st : ImportState)
        (row : TemplateRow) (v : Venda),
        (processTemplateRow lote agora st row).vendas = st.vendas ++ [v] →
        v.margem_contribuicao =
          v.receita_total - v.custo_total - parse_brl row.comissao) := by
  constructor
  · intro lote cat leitura st h
    cases leitura with
    | error e => exact absurd h (by simp [importar_vendas_ml])
    | ok df =>
      rw [importar_vendas_ml] at h
      by_cases hcol : colunaNumVenda ∈ df.columns
      · rw [if_pos hcol] at h
        injection h with h2
        rw [← h2]
        exact foldl_preserva
          (fun s => ∀ v ∈ s.vendas,
            v.margem_contribuicao = v.receita_total - v.custo_total) _
          (fun s r hs => processMLRow_margem lote s r hs) _ _
          (fun v hv => absurd hv (List.not_mem_nil v))
      · rw [if_neg hcol] at h
        cases h
  · intro lote agora st row v h
    simp only [processTemplateRow] at h
    split at h
    · simp at h
    · split at h
      · simp at h
      · split at h
        · simp at h
        · rename_i p heq
          have h2 := List.append_cancel_left h
          rw [List.cons.injEq] at h2
          rw [← h2.1]
          show qSub (qSub (parse_brl row.receita)
              (qMul p.custo_unitario (Rat.ofInt (toIntOr0 row.quantidade))))
              (parse_brl row.comissao) =
            parse_brl row.receita -
              qMul p.custo_unitario (Rat.ofInt (toIntOr0 row.quantidade)) -
              parse_brl row.comissao
          rw [qSub_eq, qSub_eq]

/-- C2 (counterexample): a marketplace row carrying commission 10 in
its fee column, revenue 100, one unit of a cost-0 product, is stored
with margin 100, not `100 − 0 − 10 = 90`: the claimed single contract
`margin = revenue − cost − commission` fails for the ML variant. -/
theorem C2_margem_counterexample :
    importar_vendas_ml "L2" c2Cat (Except.ok c2Sheet) = .ok c2St ∧
    c2St.vendas = [c2Venda] ∧
    ¬ (c2Venda.margem_contribuicao =
        c2Venda.receita_total - c2Venda.custo_total -
          parse_brl c2Row.tarifa) :=
  ⟨by decide, by decide, by with_unfolding_all decide⟩

/-- C2 (witness): both clauses at concrete runs — the marketplace batch
`c1StML` (margin 50 − 6), and the template row `c1RowT` inserting
`c2VendaTpl` (margin 20 − 4 − 1). -/
theorem C2_margem_amended_witness :
    (∀ v ∈ c1StML.vendas,
        v.margem_contribuicao = v.receita_total - v.custo_total) ∧
    c2VendaTpl.margem_contribuicao =
      c2VendaTpl.receita_total - c2VendaTpl.custo_total -
        parse_brl c1RowT.comissao :=
  ⟨C2_margem_amended.1 "L1" c1Cat (Except.ok c1SheetML) c1StML (by decide),
   C2_margem_amended.2 "L1" c1Agora ⟨c1Cat, [], 0, 0, 0⟩ c1RowT c2VendaTpl
     (by decide)⟩

/-- C3 (amended): both variants try the SKU first, and both fall back
to an exact-title match when the SKU is blank; but on a non-blank SKU
with no catalog hit, only the template variant falls back to the title —
the marketplace variant returns no product (the row is then counted as
unmatched). -/
theorem C3_busca_amended :
    (∀ (cat : List Produto) (sku titulo : String) (p : Produto),
        sku ≠ "" → findBySku cat sku = some p →
        buscaProdutoML cat sku titulo = some p ∧
        buscaProdutoTemplate cat sku titulo = some p) ∧
    (∀ (cat : List Produto) (sku titulo : String),
        sku = "" → titulo ≠ "" →
        buscaProdutoML cat sku titulo = findByNome cat titulo ∧
        buscaProdutoTemplate cat sku titulo = findByNome cat titulo) ∧
    (∀ (cat : List Produto) (sku titulo : String),
        sku ≠ "" → findBySku cat sku = none → titulo ≠ "" →
        buscaProdutoTemplate cat sku titulo = findByNome cat titulo ∧
        buscaProdutoML cat sku titulo = none) := by
  refine ⟨?_, ?_, ?_⟩
  · intro cat sku titulo p hs hf
    exact ⟨by simp [buscaProdutoML, hs, hf],
      by simp [buscaProdutoTemplate, hs, hf]⟩
  · intro cat sku titulo hs ht
    subst hs
    exact ⟨by simp [buscaProdutoML, ht],
      by simp [buscaProdutoTemplate, ht]⟩
  · intro cat sku titulo hs hf ht
    exact ⟨by simp [buscaProdutoTemplate, hs, hf, ht],
      by simp [buscaProdutoML, hs, hf]⟩

/-- C3 (counterexample): catalog owns a product titled `Luminária` with
SKU `LUM`; a marketplace row carries the unknown SKU `XYZ` and exactly
that title.  The claimed fallback would match it by title, but
`buscaProdutoML` returns nothing and the whole import files the row
under `vendas_sem_produto`, with no sale and no stock change. -/
theorem C3_fallback_counterexample :
    (findByNome c3Cat "Luminária").isSome = true ∧
    findBySku c3Cat "XYZ" = none ∧
    buscaProdutoML c3Cat "XYZ" "Luminária" = none ∧
    importar_vendas_ml "L3" c3Cat (Except.ok c3Sheet) =
      .ok ⟨c3Cat, [], 0, 0, 1⟩ := by
  exact ⟨by decide, by decide, by decide, by decide⟩

/-- C3 (witness): on the sample catalog, the unmatched non-blank SKU
falls back to the title in the template lookup but not in the
marketplace one. -/
theorem C3_busca_amended_witness :
    buscaProdutoTemplate c3Cat "XYZ" "Luminária" =
      findByNome c3Cat "Luminária" ∧
    buscaProdutoML c3Cat "XYZ" "Luminária" = none :=
  C3_busca_amended.2.2 c3Cat "XYZ" "Luminária" (by decide) (by decide)
    (by decide)

/-- C7: a marketplace row whose `N.º de venda` cell is NA (pandas
`notna` is false) is dropped before per-row classification: the import
result — sale records, stock, and all three counters — is identical to
running the import without that row. -/
theorem C7_ordem_em_branco (lote : String) (cat : List Produto)
    (cols : List String) (rows₁ rows₂ : List MLRow) (r : MLRow)
    (h : r.numeroVenda.isNA = true) :
    importar_vendas_ml lote cat (.ok ⟨cols, rows₁ ++ r :: rows₂⟩) =
      importar_vendas_ml lote cat (.ok ⟨cols, rows₁ ++ rows₂⟩) := by
  simp only [importar_vendas_ml]
  have hf : (rows₁ ++ r :: rows₂).filter (fun x => !x.numeroVenda.isNA) =
      (rows₁ ++ rows₂).filter (fun x => !x.numeroVenda.isNA) := by
    simp [List.filter_append, List.filter_cons, h]
  rw [hf]

/-- C7 (witness): a one-row sheet whose only row has a NaN order number
  imports exactly like the empty sheet. -/
theorem C7_ordem_em_branco_witness :
    importar_vendas_ml "L7" []
        (.ok ⟨[colunaNumVenda],
          [⟨Cell.nan, Cell.none, Cell.none, Cell.none, Cell.none,
            Cell.none, Cell.none⟩]⟩) =
      importar_vendas_ml "L7" [] (.ok ⟨[colunaNumVenda], []⟩) :=
  C7_ordem_em_branco "L7" [] [colunaNumVenda] [] []
    ⟨Cell.nan, Cell.none, Cell.none, Cell.none, Cell.none, Cell.none,
      Cell.none⟩ (by decide)

/-- C8: the format-error contract.  (1) A failed sheet read propagates
to the caller untouched.  (2) A marketplace sheet without the
`N.º de venda` column yields exactly the descriptive format error.
(3) A template import whose chosen sheet misses any required column
yields exactly its descriptive format error.  In all three cases the
  importer returns an error value carrying no state: the transaction body
(the fold from the untouched catalog) never starts, so no sale is
inserted and no stock quantity changes. -/
theorem C8_erro_formato :
    (∀ (lote : String) (cat : List Produto) (e : String),
        importar_vendas_ml lote cat (.error e) = .error e) ∧
    (∀ (lote : String) (cat : List Produto) (cols : List String)
        (rows : List MLRow), colunaNumVenda ∉ cols →
        importar_vendas_ml lote cat (.ok ⟨cols, rows⟩) =
          .error erroFormatoML) ∧
    (∀ (lote : String) (agora : PyDateTime) (cat : List Produto)
        (lt : Except String TemplateSheet) (pa : TemplateSheet),
        colunasObrig.all (fun c => c ∈ (escolheAba lt pa).columns) = false →
        importar_vendas_template lote agora cat lt pa =
          .error erroFormatoTemplate) := by
  refine ⟨fun lote cat e => rfl, ?_, ?_⟩
  · intro lote cat cols rows h
    simp [importar_vendas_ml, h]
  · intro lote agora cat lt pa h
    simp [importar_vendas_template, h]

/-- C8 (witness): a propagated read failure, a marketplace sheet with
the wrong columns, and a template sheet missing required columns. -/
theorem C8_erro_formato_witness :
    importar_vendas_ml "L8" [] (.error "sem aba") = .error "sem aba" ∧
    importar_vendas_ml "L8" [] (.ok ⟨["Outra"], []⟩) =
      .error erroFormatoML ∧
    importar_vendas_template "L8" c1Agora [] (.ok ⟨["SKU"], []⟩) ⟨[], []⟩ =
      .error erroFormatoTemplate :=
  ⟨C8_erro_formato.1 "L8" [] "sem aba",
   C8_erro_formato.2.1 "L8" [] ["Outra"] [] (by decide),
   C8_erro_formato.2.2 "L8" c1Agora [] (.ok ⟨["SKU"], []⟩) ⟨[], []⟩
     (by decide)⟩

/-- Multiplying by an integer-zero cost factor gives zero. -/
theorem qMul_ofInt_zero (a : ℚ) : qMul a (Rat.ofInt 0) = 0 := by
  rw [qMul_eq, Rat.ofInt_eq_cast]
  simp

/-- Subtracting zero is the identity. -/
theorem qSub_zero (a : ℚ) : qSub a 0 = a := by
  rw [qSub_eq]
  simp

/-- Decrementing stock by zero leaves the catalog unchanged. -/
theorem decrementaEstoque_zero (cat : List Produto) (pid : Int) :
    decrementaEstoque cat pid 0 = cat := by
  rw [decrementaEstoque]
  have hid : ∀ p ∈ cat,
      (if p.id = pid then { p with estoque_atual := p.estoque_atual - 0 }
       else p) = p := by
    intro p _
    split
    · show ({ p with estoque_atual := p.estoque_atual - 0 }) = p
      rw [Int.sub_zero]
    · rfl
  rw [List.map_congr_left hid]
  simp

/-- C9: only the template variant skips non-positive quantities.
(1) A matched marketplace row whose units cell is missing (`None`),
NaN, or an `int`-unconvertible string is still imported: quantity 0,
unit price 0, cost 0, margin equal to the parsed revenue, stock
decremented by 0 (i.e. unchanged), imported counter bumped, both skip
counters untouched.  (2) A template row whose parsed quantity is ≤ 0
leaves the state entirely unchanged. -/
theorem C9_unidades_invalidas :
    (∀ (lote : String) (st : ImportState) (row : MLRow) (p : Produto),
        buscaProdutoML st.catalogo (strOrBlank row.sku)
          (strOrBlank row.titulo) = some p →
        (row.unidades = Cell.none ∨ row.unidades = Cell.nan ∨
          (∃ s, row.unidades = Cell.str s ∧ pyInt s = none)) →
        processMLRow lote st row =
          { catalogo := st.catalogo,
            vendas := st.vendas ++
              [{ produto_id := p.id,
                 data_venda := parse_data_venda row.dataVenda,
                 quantidade := 0, preco_venda_unitario := 0,
                 receita_total := toFloatOr0 row.totalBRL,
                 custo_total := 0,
                 margem_contribuicao := toFloatOr0 row.totalBRL,
                 origem := "Mercado Livre",
                 numero_venda_ml := some (pyStr row.numeroVenda),
                 lote_importacao := lote }],
            vendas_importadas := st.vendas_importadas + 1,
            vendas_sem_sku := st.vendas_sem_sku,
            vendas_sem_produto := st.vendas_sem_produto }) ∧
    (∀ (lote : String) (agora : PyDateTime) (st : ImportState)
        (row : TemplateRow), toIntOr0 row.quantidade ≤ 0 →
        processTemplateRow lote agora st row = st) := by
  constructor
  · intro lote st row p hp hu
    have hu0 : toIntOr0 row.unidades = 0 := by
      rcases hu with h | h | ⟨s, hs, hps⟩
      · rw [h]; rfl
      · rw [h]; rfl
      · rw [hs]; simp [toIntOr0, hps]
    simp only [processMLRow, hp, hu0, decrementaEstoque_zero,
      qMul_ofInt_zero, qSub_zero]
    simp
  · intro lote agora st row h
    simp only [processTemplateRow]
    rw [if_pos h]

/-- C9 (witness): a matched marketplace row with a missing units cell
(still imported, quantity 0, margin = revenue 50, stock untouched), and
a quantity-0 template row (skipped without any trace). -/
theorem C9_unidades_invalidas_witness :
    processMLRow "L9" ⟨c1Cat, [], 0, 0, 0⟩
        ⟨Cell.str "900", Cell.str "SKU1", Cell.str "Caneca", Cell.none,
          Cell.none, Cell.int 50, Cell.none⟩ =
      ⟨c1Cat,
        [⟨1, none, 0, 0, Rat.ofInt 50, 0, Rat.ofInt 50, "Mercado Livre",
          some "900", "L9"⟩],
        1, 0, 0⟩ ∧
    processTemplateRow "L9" c1Agora ⟨c1Cat, [], 0, 0, 0⟩
        ⟨Cell.str "SKU1", Cell.str "Caneca", Cell.int 0, Cell.none,
          Cell.none, Cell.none⟩ = ⟨c1Cat, [], 0, 0, 0⟩ :=
  ⟨C9_unidades_invalidas.1 "L9" ⟨c1Cat, [], 0, 0, 0⟩
      ⟨Cell.str "900", Cell.str "SKU1", Cell.str "Caneca", Cell.none,
        Cell.none, Cell.int 50, Cell.none⟩
      ⟨1, "Caneca", some "SKU1", Rat.ofInt 2, 10⟩ (by decide) (Or.inl rfl),
   C9_unidades_invalidas.2 "L9" c1Agora ⟨c1Cat, [], 0, 0, 0⟩
      ⟨Cell.str "SKU1", Cell.str "Caneca", Cell.int 0, Cell.none,
        Cell.none, Cell.none⟩ (by decide)⟩

/-- C10: when reading the `Template` sheet fails for any reason, the
batch silently runs on the workbook's first sheet instead — the
whole result is the same as if the first sheet had been the `Template`
sheet — and no missing-sheet error exists: with the required columns
present on the first sheet the import commits (`.ok`); the only format
error left is the missing-columns one (see the C8 theorem). -/
theorem C10_fallback_primeira_aba :
    (∀ (lote : String) (agora : PyDateTime) (cat : List Produto)
        (e : String) (pa : TemplateSheet),
        importar_vendas_template lote agora cat (.error e) pa =
          importar_vendas_template lote agora cat (.ok pa) pa) ∧
    (∀ (lote : String) (agora : PyDateTime) (cat : List Produto)
        (e : String) (pa : TemplateSheet),
        colunasObrig.all (fun c => c ∈ pa.columns) = true →
        ∃ st, importar_vendas_template lote agora cat (.error e) pa =
          .ok st) := by
  constructor
  · intro lote agora cat e pa
    rfl
  · intro lote agora cat e pa h
    refine ⟨pa.rows.foldl (processTemplateRow lote agora)
      ⟨cat, [], 0, 0, 0⟩, ?_⟩
    simp only [importar_vendas_template, escolheAba]
    rw [if_pos h]

/-- C10 (witness): with the sample template sheet as first sheet, a
failed `Template`-sheet read falls back and commits. -/
theorem C10_fallback_primeira_aba_witness :
    importar_vendas_template "LX" c1Agora c1Cat (.error "sem aba")
        c1SheetT =
      importar_vendas_template "LX" c1Agora c1Cat (.ok c1SheetT)
        c1SheetT ∧
    ∃ st, importar_vendas_template "LX" c1Agora c1Cat (.error "sem aba")
      c1SheetT = .ok st :=
  ⟨C10_fallback_primeira_aba.1 "LX" c1Agora c1Cat "sem aba" c1SheetT,
   C10_fallback_primeira_aba.2 "LX" c1Agora c1Cat "sem aba" c1SheetT
     (by decide)⟩

/-- C4 (witness): the pass-through clause at a concrete integer. -/
theorem C4_parse_brl_contract_witness :
    parse_brl (Cell.int 7) = ((7 : ℤ) : ℚ) :=
  C4_parse_brl_contract.2.2.1 7
